import Mathlib

/-!
Verification development for the blockfrost-rust client library core:
the response-error classifier (`src/error.rs`), the `Block` JSON schema
(`src/api/endpoints/blocks.rs`), and the pagination engine (`Lister`).

JSON values are embedded as an inductive type; the external `serde_json`
parser is modelled abstractly: a response body is represented together
with the outcome of parsing it (either it is not valid JSON, or it parses
to a definite JSON value).
-/

namespace Blockfrost

/-- A JSON value (model of `serde_json::Value`; numbers restricted to
integers, which covers every shape the claims quantify over). -/
inductive Json where
  | null
  | bool (b : Bool)
  | num (n : Int)
  | str (s : String)
  | arr (xs : List Json)
  | obj (fields : List (String × Json))
deriving Repr

/-- Quote a string as a JSON string literal (escaping elided in the model). -/
def jsonQuote (s : String) : String := "\"" ++ s ++ "\""

/-- Render a JSON value as text: the model of `serde_json`'s pretty
formatting of a value. -/
def prettyPrintJson : Json → String
  | .null => "null"
  | .bool b => cond b "true" "false"
  | .num n => toString n
  | .str s => jsonQuote s
  | .arr xs =>
      "[" ++ String.intercalate ", " (xs.attach.map (fun x => prettyPrintJson x.1)) ++ "]"
  | .obj fs =>
      "\x7b" ++
        String.intercalate ", "
          (fs.attach.map (fun f => jsonQuote f.1.1 ++ ": " ++ prettyPrintJson f.1.2)) ++
      "\x7d"
decreasing_by
  · have := List.sizeOf_lt_of_mem x.2
    simp only [Json.arr.sizeOf_spec]
    omega
  · have h1 := List.sizeOf_lt_of_mem f.2
    have h2 : sizeOf f.1.2 < sizeOf f.1 := by
      obtain ⟨a, b⟩ := f.1
      simp
    simp only [Json.obj.sizeOf_spec]
    omega

/-- Look up a field of a JSON object by key (first occurrence). -/
def Json.getField (j : Json) (key : String) : Option Json :=
  match j with
  | .obj fs => (fs.find? (fun f => f.1 == key)).map (fun f => f.2)
  | _ => none

/-- The structured error envelope `ResponseError` from `src/error.rs`:
`status_code: u16`, `error: String`, `message: String` (the `u16` is
modelled as a `Nat` bounded by 65535 at decode time). -/
structure ResponseError where
  status_code : Nat
  error : String
  message : String
deriving DecidableEq, Repr

/-- Model of `std::io::Error`: an external opaque cause, carried around
but never inspected by this crate's code. -/
structure IoError where
  cause : String
deriving DecidableEq, Repr

/-- The crate's `Error` enum from `src/error.rs`. External reason types
(`reqwest::Error`, `serde_json::Error`, `toml::de::Error`) are opaque to
this crate and modelled as strings; `PathBuf` as a string. -/
inductive Error where
  | Reqwest (url : String) (reason : String)
  | Json (url : String) (text : String) (reason : String)
  | Io (source : IoError)
  | Toml (path : String) (reason : String)
  | Response (url : String) (reason : ResponseError)
deriving DecidableEq, Repr

/-- `impl From<IoError> for Error` from `src/error.rs`: the local I/O
failure is wrapped as `Error::Io`, unchanged. -/
def Error.from_io (source : IoError) : Error := Error.Io source

/-- Structural decode of a JSON value as the `ResponseError` envelope:
model of serde's derived `Deserialize` — an object providing a `u16`
`status_code`, a string `error`, and a string `message`. -/
def decodeResponseError (j : Json) : Option ResponseError :=
  match j.getField "status_code", j.getField "error", j.getField "message" with
  | some (.num n), some (.str e), some (.str m) =>
      if 0 ≤ n ∧ n ≤ 65535 then some ⟨n.toNat, e, m⟩ else none
  | _, _, _ => none

/-- A response body text, carried together with the outcome of parsing it
as JSON (the abstract model of running `serde_json`'s parser on the raw
text): either the text is not valid JSON, or it parses to a value `j`. -/
inductive BodyText where
  | invalidJson (raw : String)
  | validJson (raw : String) (j : Json)
deriving Repr

/-- The raw body text. -/
def BodyText.rawText : BodyText → String
  | .invalidJson raw => raw
  | .validJson raw _ => raw

/-- Model of `serde_json::from_str::<ResponseError>(text)`: parse the text
as JSON, then structurally decode the envelope. -/
def parse_response_error : BodyText → Option ResponseError
  | .invalidJson _ => none
  | .validJson _ j => decodeResponseError j

/-- Modelled from the spec: `utils::try_formatting_json` (its source file
`src/utils.rs` is not among the provided sources) — per §4.2, the body
text is "re-formatted as pretty JSON if it is valid JSON of any shape",
and the function fails otherwise. -/
def try_formatting_json : BodyText → Option String
  | .invalidJson _ => none
  | .validJson _ j => some (prettyPrintJson j)

/-- The fixed sentinel `reason` string from `process_error_response` in
`src/error.rs`. -/
def parse_failure_reason : String :=
  "Could not parse error body to interpret the reason of the error"

/-- The hard-coded `expected_error_codes` array from `src/error.rs`. -/
def expected_error_codes : List Nat := [400, 403, 404, 418, 429, 500]

/-- `process_error_response` from `src/error.rs`, returning the `Error`
together with whether the unexpected-status warning was printed (the
`eprintln!` side effect, made explicit as a boolean output). -/
def process_error_response (text : BodyText) (status_code : Nat) (url : String) :
    Error × Bool :=
  let warning := !(expected_error_codes.contains status_code)
  match parse_response_error text with
  | some http_error => (Error.Response url http_error, warning)
  | none =>
      let formatted_body_text := (try_formatting_json text).getD text.rawText
      let reason := parse_failure_reason
      let http_error : ResponseError :=
        { status_code := status_code, error := reason, message := formatted_body_text }
      (Error.Response url http_error, warning)

/-- Classification with the expected-status check removed: the comparison
definition for the claim that membership of the status in the expected
set has no influence on the returned error value. Its definition makes
no reference to `expected_error_codes`. -/
def classify_without_status_check (text : BodyText) (status_code : Nat) (url : String) :
    Error :=
  match parse_response_error text with
  | some http_error => Error.Response url http_error
  | none =>
      let formatted_body_text := (try_formatting_json text).getD text.rawText
      let http_error : ResponseError :=
        { status_code := status_code, error := parse_failure_reason,
          message := formatted_body_text }
      Error.Response url http_error

/-- The `Block` record from `src/api/endpoints/blocks.rs` (`Integer` is
the crate's alias for `i128`, modelled as `Int`). -/
structure Block where
  time : Int
  height : Option Int
  hash : String
  slot : Option Int
  epoch : Option Int
  epoch_slot : Option Int
  slot_leader : String
  size : Int
  tx_count : Int
  output : Option String
  fees : Option String
  block_vrf : Option String
  previous_block : Option String
  next_block : Option String
  confirmations : Int
deriving DecidableEq, Repr

/-- serde serialization of an `Option<Integer>` field: `None` is `null`. -/
def encodeOptInt : Option Int → Json
  | none => .null
  | some n => .num n

/-- serde serialization of an `Option<String>` field: `None` is `null`. -/
def encodeOptStr : Option String → Json
  | none => .null
  | some s => .str s

/-- serde's derived `Serialize` for `Block`: a JSON object with one entry
per field, in declaration order. -/
def encodeBlock (b : Block) : Json :=
  .obj
    [("time", .num b.time),
     ("height", encodeOptInt b.height),
     ("hash", .str b.hash),
     ("slot", encodeOptInt b.slot),
     ("epoch", encodeOptInt b.epoch),
     ("epoch_slot", encodeOptInt b.epoch_slot),
     ("slot_leader", .str b.slot_leader),
     ("size", .num b.size),
     ("tx_count", .num b.tx_count),
     ("output", encodeOptStr b.output),
     ("fees", encodeOptStr b.fees),
     ("block_vrf", encodeOptStr b.block_vrf),
     ("previous_block", encodeOptStr b.previous_block),
     ("next_block", encodeOptStr b.next_block),
     ("confirmations", .num b.confirmations)]

/-- Decode a required `Integer` field. -/
def decodeIntField : Option Json → Option Int
  | some (.num n) => some n
  | _ => none

/-- Decode a required `String` field. -/
def decodeStrField : Option Json → Option String
  | some (.str s) => some s
  | _ => none

/-- Decode an `Option<Integer>` field: serde maps a missing field or a
`null` value to `None`. -/
def decodeOptIntField : Option Json → Option (Option Int)
  | none => some none
  | some .null => some none
  | some (.num n) => some (some n)
  | _ => none

/-- Decode an `Option<String>` field: serde maps a missing field or a
`null` value to `None`. -/
def decodeOptStrField : Option Json → Option (Option String)
  | none => some none
  | some .null => some none
  | some (.str s) => some (some s)
  | _ => none

/-- serde's derived `Deserialize` for `Block`: field lookup by name in a
JSON object, with `Option` fields tolerating absence and `null`. -/
def decodeBlock (j : Json) : Option Block := do
  match j with
  | .obj _ =>
    let time ← decodeIntField (j.getField "time")
    let height ← decodeOptIntField (j.getField "height")
    let hash ← decodeStrField (j.getField "hash")
    let slot ← decodeOptIntField (j.getField "slot")
    let epoch ← decodeOptIntField (j.getField "epoch")
    let epoch_slot ← decodeOptIntField (j.getField "epoch_slot")
    let slot_leader ← decodeStrField (j.getField "slot_leader")
    let size ← decodeIntField (j.getField "size")
    let tx_count ← decodeIntField (j.getField "tx_count")
    let output ← decodeOptStrField (j.getField "output")
    let fees ← decodeOptStrField (j.getField "fees")
    let block_vrf ← decodeOptStrField (j.getField "block_vrf")
    let previous_block ← decodeOptStrField (j.getField "previous_block")
    let next_block ← decodeOptStrField (j.getField "next_block")
    let confirmations ← decodeIntField (j.getField "confirmations")
    pure ⟨time, height, hash, slot, epoch, epoch_slot, slot_leader, size, tx_count,
          output, fees, block_vrf, previous_block, next_block, confirmations⟩
  | _ => none

/-- Decidable equality for `Except`, needed to evaluate lister traces on
concrete inputs. -/
instance exceptDecEq {ε α : Type} [DecidableEq ε] [DecidableEq α] :
    DecidableEq (Except ε α)
  | .ok a, .ok b =>
      if h : a = b then .isTrue (by rw [h]) else .isFalse (by simp [h])
  | .ok _, .error _ => .isFalse (by simp)
  | .error _, .ok _ => .isFalse (by simp)
  | .error a, .error b =>
      if h : a = b then .isTrue (by rw [h]) else .isFalse (by simp [h])

/-- One page fetch outcome as seen by the pagination engine: the
dispatcher either delivers a decoded page of items or fails with a crate
`Error`. -/
inductive PageOutcome (α : Type) where
  | success (items : List α)
  | failure (e : Error)
deriving DecidableEq, Repr

/-- Modelled from the spec: the `Lister` state machine of §4.3 (its source
file `src/api/lister.rs` is not among the provided sources; `src/lib.rs`
only re-exports it). States are `Ready(page_n)`, `Exhausted` and
`Failed(error)`. -/
inductive ListerState where
  | ready (page : Nat)
  | exhausted
  | failed (e : Error)
deriving DecidableEq, Repr

/-- The outcome of one advance step: the successor state, the element
yielded to the consumer (a page or the terminal error), and the page
number requested from the dispatcher, when a request was issued. -/
structure StepResult (α : Type) where
  next : ListerState
  output : Option (Except Error (List α))
  request : Option Nat
deriving DecidableEq, Repr

/-- Modelled from the spec: one advance step of the `Lister` (§4.3).
From `Ready(n)` the engine requests page `n`: an empty page moves to
`Exhausted` with no output, a non-empty page yields its items and moves
to `Ready(n+1)`, a failure yields the error and moves to `Failed`.
`Exhausted` and `Failed` are terminal: no request, no output. -/
def listerStep {α : Type} (fetch : Nat → PageOutcome α) : ListerState → StepResult α
  | .ready n =>
      match fetch n with
      | .success [] => ⟨.exhausted, none, some n⟩
      | .success (x :: xs) => ⟨.ready (n + 1), some (.ok (x :: xs)), some n⟩
      | .failure e => ⟨.failed e, some (.error e), some n⟩
  | .exhausted => ⟨.exhausted, none, none⟩
  | .failed e => ⟨.failed e, none, none⟩

/-- Modelled from the spec: pull the `Lister` `fuel` times from state `s`,
collecting the elements yielded to the consumer, the page numbers
requested from the dispatcher, and the final state. -/
def runLister {α : Type} (fetch : Nat → PageOutcome α) :
    Nat → ListerState → List (Except Error (List α)) × List Nat × ListerState
  | 0, s => ([], [], s)
  | fuel + 1, s =>
      let r := listerStep fetch s
      let rest := runLister fetch fuel r.next
      (r.output.toList ++ rest.1, r.request.toList ++ rest.2.1, rest.2.2)

/-! ### Theorems about the response classifier -/

/-- C3: for every HTTP status, URL, and body that is valid JSON but does
not decode as the `{status_code, error, message}` envelope, the classifier
returns an `ApiError` whose `message` is the pretty-printed form of the
JSON body, whose `status_code` is the real HTTP status, and whose `error`
is the fixed could-not-parse sentinel. -/
theorem classifier_valid_json_fallback (raw : String) (j : Json) (s : Nat) (url : String)
    (hdec : decodeResponseError j = none) :
    (process_error_response (.validJson raw j) s url).1 =
      Error.Response url ⟨s, parse_failure_reason, prettyPrintJson j⟩ := by
  simp [process_error_response, parse_response_error, hdec, try_formatting_json]

/-- C3 witness: the body `[]` is valid JSON but not the envelope. -/
theorem classifier_valid_json_fallback_witness :
    decodeResponseError (Json.arr []) = none ∧
      (process_error_response (.validJson "[]" (Json.arr [])) 404 "https://x/y").1 =
        Error.Response "https://x/y" ⟨404, parse_failure_reason, prettyPrintJson (Json.arr [])⟩ :=
  ⟨rfl, classifier_valid_json_fallback "[]" (Json.arr []) 404 "https://x/y" rfl⟩

/-- C4: for every HTTP status, URL, and body that is not valid JSON at
all, the classifier returns an `ApiError` whose `message` is the original
raw body text unchanged. -/
theorem classifier_invalid_json_fallback (raw : String) (s : Nat) (url : String) :
    (process_error_response (.invalidJson raw) s url).1 =
      Error.Response url ⟨s, parse_failure_reason, raw⟩ := by
  simp [process_error_response, parse_response_error, try_formatting_json, BodyText.rawText]

/-- C5: the classifier is total and always returns the `Error::Response`
variant carrying the originating URL, whatever the body, status and URL. -/
theorem classifier_always_response (text : BodyText) (s : Nat) (url : String) :
    ∃ r : ResponseError, (process_error_response text s url).1 = Error.Response url r := by
  unfold process_error_response
  cases h : parse_response_error text <;> simp

/-- C6: a body that decodes as the structured envelope is returned as-is
as the `ApiError`, wrapped with the originating URL. -/
theorem classifier_envelope_passthrough (raw : String) (j : Json) (re : ResponseError)
    (s : Nat) (url : String) (hdec : decodeResponseError j = some re) :
    (process_error_response (.validJson raw j) s url).1 = Error.Response url re := by
  simp [process_error_response, parse_response_error, hdec]

/-- C6 witness: a concrete envelope body decodes and passes through. -/
theorem classifier_envelope_passthrough_witness :
    decodeResponseError
        (Json.obj [("status_code", Json.num 400), ("error", Json.str "Bad Request"),
                   ("message", Json.str "oops")]) =
      some ⟨400, "Bad Request", "oops"⟩ ∧
    (process_error_response
        (.validJson "e"
          (Json.obj [("status_code", Json.num 400), ("error", Json.str "Bad Request"),
                     ("message", Json.str "oops")])) 400 "https://x/y").1 =
      Error.Response "https://x/y" ⟨400, "Bad Request", "oops"⟩ :=
  ⟨by decide,
   classifier_envelope_passthrough "e"
     (Json.obj [("status_code", Json.num 400), ("error", Json.str "Bad Request"),
                ("message", Json.str "oops")])
     ⟨400, "Bad Request", "oops"⟩ 400 "https://x/y" (by decide)⟩

/-- C7: membership of the status in the hard-coded expected set
`{400, 403, 404, 418, 429, 500}` has no influence on the returned error
value — the error component always equals `classify_without_status_check`,
whose definition never consults the set, and the membership test only
drives the warning diagnostic. -/
theorem classifier_status_set_no_influence (text : BodyText) (s : Nat) (url : String) :
    process_error_response text s url =
      (classify_without_status_check text s url, !(expected_error_codes.contains s)) := by
  unfold process_error_response classify_without_status_check
  cases h : parse_response_error text <;> simp

/-- C9: converting a local I/O failure into the crate's `Error` always
produces the `Error::Io` variant unchanged, never `Error::Response`. -/
theorem io_error_surfaced_as_is (e : IoError) :
    Error.from_io e = Error.Io e ∧ ∀ url r, Error.from_io e ≠ Error.Response url r := by
  refine ⟨rfl, fun url r h => ?_⟩
  simp [Error.from_io] at h

/-- C10: when the body decodes as the envelope, the returned error value
is exactly the decoded envelope — its `status_code` comes from the body —
and the error value does not depend on the actual HTTP status at all. -/
theorem envelope_status_taken_from_body (raw : String) (j : Json) (re : ResponseError)
    (s₁ s₂ : Nat) (url : String) (hdec : decodeResponseError j = some re) :
    (process_error_response (.validJson raw j) s₁ url).1 =
        (process_error_response (.validJson raw j) s₂ url).1 ∧
      (process_error_response (.validJson raw j) s₁ url).1 = Error.Response url re := by
  constructor <;> simp [process_error_response, parse_response_error, hdec]

/-- C10 witness: a body claiming status 500 classified under actual HTTP
statuses 404 and 403 — the error value is identical and carries 500. -/
theorem envelope_status_taken_from_body_witness :
    decodeResponseError
        (Json.obj [("status_code", Json.num 500), ("error", Json.str "ise"),
                   ("message", Json.str "m")]) = some ⟨500, "ise", "m"⟩ ∧
    (process_error_response
        (.validJson "b"
          (Json.obj [("status_code", Json.num 500), ("error", Json.str "ise"),
                     ("message", Json.str "m")])) 404 "https://x/z").1 =
        (process_error_response
          (.validJson "b"
            (Json.obj [("status_code", Json.num 500), ("error", Json.str "ise"),
                       ("message", Json.str "m")])) 403 "https://x/z").1 ∧
    (process_error_response
        (.validJson "b"
          (Json.obj [("status_code", Json.num 500), ("error", Json.str "ise"),
                     ("message", Json.str "m")])) 404 "https://x/z").1 =
      Error.Response "https://x/z" ⟨500, "ise", "m"⟩ :=
  ⟨by decide,
   (envelope_status_taken_from_body "b"
      (Json.obj [("status_code", Json.num 500), ("error", Json.str "ise"),
                 ("message", Json.str "m")])
      ⟨500, "ise", "m"⟩ 404 403 "https://x/z" (by decide)).1,
   (envelope_status_taken_from_body "b"
      (Json.obj [("status_code", Json.num 500), ("error", Json.str "ise"),
                 ("message", Json.str "m")])
      ⟨500, "ise", "m"⟩ 404 403 "https://x/z" (by decide)).2⟩

/-! ### Block JSON round-trip -/

/-- Optional integer fields survive the encode/decode cycle. -/
theorem decodeOptIntField_encode (h : Option Int) :
    decodeOptIntField (some (encodeOptInt h)) = some h := by
  cases h <;> rfl

/-- Optional string fields survive the encode/decode cycle. -/
theorem decodeOptStrField_encode (h : Option String) :
    decodeOptStrField (some (encodeOptStr h)) = some h := by
  cases h <;> rfl

/-- C8: encoding a `Block` to JSON and decoding it back yields an equal
record, for every field set — including the record with every optional
field `None`. -/
theorem block_json_roundtrip (b : Block) : decodeBlock (encodeBlock b) = some b := by
  obtain ⟨t, h, ha, sl, ep, es, sle, sz, tc, o, fe, bv, pb, nb, c⟩ := b
  simp [decodeBlock, encodeBlock, Json.getField, List.find?, decodeIntField, decodeStrField,
    decodeOptIntField_encode, decodeOptStrField_encode]

/-! ### Lister state-machine theorems -/

/-- `Exhausted` is terminal: however often it is re-queried, nothing is
yielded and no request is issued. -/
theorem runLister_exhausted {α : Type} (fetch : Nat → PageOutcome α) (fuel : Nat) :
    runLister fetch fuel .exhausted = ([], [], .exhausted) := by
  induction fuel with
  | zero => rfl
  | succ n ih => simp [runLister, listerStep, ih]

/-- `Failed` is terminal: however often it is re-queried, nothing is
yielded and no request is issued. -/
theorem runLister_failed {α : Type} (fetch : Nat → PageOutcome α) (fuel : Nat) (e : Error) :
    runLister fetch fuel (.failed e) = ([], [], .failed e) := by
  induction fuel with
  | zero => rfl
  | succ n ih => simp [runLister, listerStep, ih]

/-- Peeling the first index off a shifted range-map. -/
theorem range_map_shift {β : Type} (g : Nat → β) (M start : Nat) :
    (List.range (M + 1)).map (fun k => g (start + k)) =
      g start :: (List.range M).map (fun k => g (start + 1 + k)) := by
  rw [List.range_succ_eq_map, List.map_cons, List.map_map]
  have h0 : g (start + 0) = g start := by rw [Nat.add_zero]
  rw [h0]
  congr 1
  exact List.map_congr_left fun k hk => congrArg g (by omega)

/-- C1: over a fetch sequence with `N` successful non-empty pages starting
at `start` followed by an empty page, the Lister yields exactly those `N`
pages in increasing page order, requests exactly pages
`start, …, start + N`, and finishes `Exhausted` — for every fuel budget
large enough to reach completion, so termination is clean and final. -/
theorem lister_yields_pages {α : Type} (fetch : Nat → PageOutcome α) (pages : Nat → List α)
    (N : Nat) :
    ∀ start fuel,
      (∀ k, k < N → fetch (start + k) = .success (pages (start + k)) ∧ pages (start + k) ≠ []) →
      fetch (start + N) = .success [] → N + 1 ≤ fuel →
      runLister fetch fuel (.ready start) =
        ((List.range N).map (fun k => Except.ok (pages (start + k))),
         (List.range (N + 1)).map (fun k => start + k),
         ListerState.exhausted) := by
  induction N with
  | zero =>
    intro start fuel h hend hfuel
    obtain ⟨f, rfl⟩ : ∃ f, fuel = f + 1 := ⟨fuel - 1, by omega⟩
    rw [Nat.add_zero] at hend
    simp [runLister, listerStep, hend, runLister_exhausted, List.range_succ]
  | succ M ih =>
    intro start fuel h hend hfuel
    obtain ⟨f, rfl⟩ : ∃ f, fuel = f + 1 := ⟨fuel - 1, by omega⟩
    obtain ⟨hfe, hne⟩ := h 0 (by omega)
    rw [Nat.add_zero] at hfe hne
    obtain ⟨x, xs, hxx⟩ : ∃ x xs, pages start = x :: xs := by
      cases hp : pages start with
      | nil => exact absurd hp hne
      | cons a l => exact ⟨a, l, rfl⟩
    have ihh := ih (start + 1) f
      (fun k hk => by
        have hk1 := h (k + 1) (by omega)
        have hsh : start + (k + 1) = start + 1 + k := by omega
        rw [hsh] at hk1
        exact hk1)
      (by
        have hsh : start + (M + 1) = start + 1 + M := by omega
        rw [hsh] at hend
        exact hend)
      (by omega)
    rw [hxx] at hfe
    simp only [runLister, listerStep, hfe, ihh, Option.toList_some, List.cons_append,
      List.nil_append]
    rw [range_map_shift (fun k => Except.ok (pages k) : Nat → Except Error (List α)) M start,
      range_map_shift (fun k => k) (M + 1) start]
    simp [hxx]

/-- C2: over a fetch sequence with `F` successful non-empty pages starting
at `start` and a failure at page `start + F`, the Lister yields those `F`
pages in order, then the error exactly once as its final output, requests
exactly pages `start, …, start + F` (so never page `start + F + 1` or
later), and finishes `Failed` — for every fuel budget large enough, so no
later re-query fetches anything further. -/
theorem lister_error_is_final {α : Type} (fetch : Nat → PageOutcome α) (pages : Nat → List α)
    (F : Nat) :
    ∀ start fuel (e : Error),
      (∀ k, k < F → fetch (start + k) = .success (pages (start + k)) ∧ pages (start + k) ≠ []) →
      fetch (start + F) = .failure e → F + 1 ≤ fuel →
      runLister fetch fuel (.ready start) =
        ((List.range F).map (fun k => Except.ok (pages (start + k))) ++ [Except.error e],
         (List.range (F + 1)).map (fun k => start + k),
         ListerState.failed e) := by
  induction F with
  | zero =>
    intro start fuel e h hfail hfuel
    obtain ⟨f, rfl⟩ : ∃ f, fuel = f + 1 := ⟨fuel - 1, by omega⟩
    rw [Nat.add_zero] at hfail
    simp [runLister, listerStep, hfail, runLister_failed, List.range_succ]
  | succ M ih =>
    intro start fuel e h hfail hfuel
    obtain ⟨f, rfl⟩ : ∃ f, fuel = f + 1 := ⟨fuel - 1, by omega⟩
    obtain ⟨hfe, hne⟩ := h 0 (by omega)
    rw [Nat.add_zero] at hfe hne
    obtain ⟨x, xs, hxx⟩ : ∃ x xs, pages start = x :: xs := by
      cases hp : pages start with
      | nil => exact absurd hp hne
      | cons a l => exact ⟨a, l, rfl⟩
    have ihh := ih (start + 1) f e
      (fun k hk => by
        have hk1 := h (k + 1) (by omega)
        have hsh : start + (k + 1) = start + 1 + k := by omega
        rw [hsh] at hk1
        exact hk1)
      (by
        have hsh : start + (M + 1) = start + 1 + M := by omega
        rw [hsh] at hfail
        exact hfail)
      (by omega)
    rw [hxx] at hfe
    simp only [runLister, listerStep, hfe, ihh, Option.toList_some, List.cons_append,
      List.nil_append]
    rw [range_map_shift (fun k => Except.ok (pages k) : Nat → Except Error (List α)) M start,
      range_map_shift (fun k => k) (M + 1) start]
    simp [hxx]

/-- A concrete fetch sequence: pages 1 and 2 hold one item each, page 3 is
empty. -/
def demoFetchOk : Nat → PageOutcome Nat :=
  fun n => if n ≤ 2 then .success [n] else .success []

/-- The page contents of the concrete sequences. -/
def demoPages : Nat → List Nat := fun n => [n]

/-- A concrete error used by the failing fetch sequence. -/
def demoErr : Error := Error.Reqwest "https://x/p" "connection reset"

/-- A concrete fetch sequence: pages 1 and 2 hold one item each, fetching
page 3 fails. -/
def demoFetchFail : Nat → PageOutcome Nat :=
  fun n => if n ≤ 2 then .success [n] else .failure demoErr

/-- C1 witness: the Lister over `demoFetchOk`, started at page 1 with fuel
3, yields pages `[1]` and `[2]`, requests pages 1, 2, 3 and exhausts. -/
theorem lister_yields_pages_witness :
    runLister demoFetchOk 3 (.ready 1) =
      ([Except.ok [1], Except.ok [2]], [1, 2, 3], ListerState.exhausted) :=
  lister_yields_pages demoFetchOk demoPages 2 1 3 (by decide) (by decide) (by decide)

/-- C2 witness: the Lister over `demoFetchFail`, started at page 1 with
fuel 3, yields pages `[1]`, `[2]`, then the error, requests pages 1, 2, 3
and fails. -/
theorem lister_error_is_final_witness :
    runLister demoFetchFail 3 (.ready 1) =
      ([Except.ok [1], Except.ok [2], Except.error demoErr], [1, 2, 3],
       ListerState.failed demoErr) :=
  lister_error_is_final demoFetchFail demoPages 2 1 3 demoErr (by decide) (by decide)
    (by decide)

end Blockfrost
